import Mathlib

/-!
Shallow embedding of the alphafold_web_app job-tracking server.

The embedded code:
* `isValidSequence`              — src/src/shared/utils (part_004)
* job store operations           — src/server/services/queueService (part_005)
* `checkBlobExists`              — src/azure/src/server/services/blobServices.ts
* `checkObjectExists`            — S3 storage service (part_005, second file)
* `submitSequence`, `getJobStatus`, `checkResult`
                                 — src/server/controllers/sequenceController (part_006)

Externals (uuid generation, SAS/presigned URL generation, the predictor
HTTP call, blob existence, wall-clock time) are supplied through an `Env`
record, one per request, so that "generated during this request" is the
application of that request's `Env` functions.  Handlers are modelled on
their non-throwing paths; the storage adapters' own error behaviour is
modelled separately at the provider-outcome boundary.
-/

set_option maxRecDepth 10000

namespace AlphafoldWebApp

/-- Job status, from shared/types: "submitted" | "queued" | "processing" | "completed" | "error". -/
inductive Status where
  | submitted
  | queued
  | processing
  | completed
  | error
deriving DecidableEq, Repr

/-- One job record, as persisted in queue.json / log.json (shared/types JobData,
    with the `storageName` field used by the controllers). -/
structure JobData where
  jobId : String
  sequence : String
  status : Status
  storageName : String
  storageUrl : String
  submittedAt : String
  processedAt : Option String
  completedAt : Option String
  error : Option String
deriving DecidableEq, Repr

/-- The two flat-file collections queue.json and log.json. -/
structure Store where
  queue : List JobData
  log : List JobData
deriving DecidableEq, Repr

def emptyStore : Store := ⟨[], []⟩

/-- queueService.addToQueue: read queue, push, rewrite. -/
def addToQueue (s : Store) (jobData : JobData) : Store :=
  { s with queue := s.queue ++ [jobData] }

/-- queueService.addToLog: read log, push a copy with processedAt set to now, rewrite. -/
def addToLog (s : Store) (now : String) (jobData : JobData) : Store :=
  { s with log := s.log ++ [{ jobData with processedAt := some now }] }

/-- queueService.removeFromQueue: filter out every entry with the given jobId. -/
def removeFromQueue (s : Store) (jobId : String) : Store :=
  { s with queue := s.queue.filter (fun job => job.jobId ≠ jobId) }

/-- queueService.getQueuedJob: first queue entry with the given jobId, else null. -/
def getQueuedJob (s : Store) (jobId : String) : Option JobData :=
  s.queue.find? (fun job => job.jobId = jobId)

/-- queueService.getLoggedJob: first log entry with the given jobId, else null. -/
def getLoggedJob (s : Store) (jobId : String) : Option JobData :=
  s.log.find? (fun job => job.jobId = jobId)

/-- The partial update object passed to updateLoggedJob by checkResult
    (only these two fields are ever updated in the code). -/
structure JobUpdates where
  status : Option Status
  completedAt : Option String
deriving DecidableEq, Repr

/-- JS object spread `{ ...job, ...updates }` for the fields of JobUpdates. -/
def applyUpdates (job : JobData) (u : JobUpdates) : JobData :=
  { job with
    status := match u.status with
      | some st => st
      | none => job.status
    completedAt := match u.completedAt with
      | some c => some c
      | none => job.completedAt }

/-- findIndex + in-place replacement of the first entry matching jobId. -/
def updateFirst (l : List JobData) (jobId : String) (u : JobUpdates) :
    Option JobData × List JobData :=
  match l with
  | [] => (none, [])
  | job :: rest =>
    if job.jobId = jobId then
      (some (applyUpdates job u), applyUpdates job u :: rest)
    else
      let (r, rest2) := updateFirst rest jobId u
      (r, job :: rest2)

/-- queueService.updateLoggedJob: merge updates into the first matching log
    entry and rewrite the file; returns null (and leaves the file as read)
    when the jobId is absent. -/
def updateLoggedJob (s : Store) (jobId : String) (u : JobUpdates) :
    Option JobData × Store :=
  let (r, l) := updateFirst s.log jobId u
  (r, { s with log := l })

/-- shared/utils validAminoAcids. -/
def validAminoAcids : List Char := "ACDEFGHIKLMNPQRSTVWY".toList

/-- shared/utils isValidSequence: falsy (empty) input is rejected, otherwise
    every character, uppercased, must occur in validAminoAcids. -/
def isValidSequence (sequence : String) : Bool :=
  if sequence = "" then false
  else sequence.data.all (fun c => validAminoAcids.contains c.toUpper)

/-- The outcome the Azure SDK's getProperties call reports: success, or a
    storage error carrying an HTTP status code. -/
structure AzureStorageError where
  statusCode : Nat
  message : String
deriving DecidableEq, Repr

/-- blobServices.ts checkBlobExists, as a function of the provider call's
    outcome: success means true, a 404 storage error means false, any other
    error is rethrown. -/
def checkBlobExists (callOutcome : Except AzureStorageError Unit) :
    Except AzureStorageError Bool :=
  match callOutcome with
  | Except.ok _ => Except.ok true
  | Except.error e =>
    if e.statusCode = 404 then Except.ok false else Except.error e

/-- The outcome the S3 SDK's HeadObject call reports: success, or an error
    carrying an error name. -/
structure S3Error where
  name : String
  message : String
deriving DecidableEq, Repr

/-- S3 storage service checkObjectExists, as a function of the provider
    call's outcome: success means true, an error named NotFound means false,
    any other error is rethrown. -/
def checkObjectExists (callOutcome : Except S3Error Unit) :
    Except S3Error Bool :=
  match callOutcome with
  | Except.ok _ => Except.ok true
  | Except.error e =>
    if e.name = "NotFound" then Except.ok false else Except.error e

/-- Per-request external world: the uuid the request draws, the SAS URL
    generator invoked during this request, whether the axios POST to the
    predictor VM succeeds, the blob-existence oracle, and the current time. -/
structure Env where
  newJobId : String
  sasUrl : String → String
  predictorOk : Bool
  blobExists : String → Bool
  now : String

/-- JSON response bodies the three handlers produce. -/
inductive RespBody where
  | errorBody (message : String)
  | submitOk (jobId storageUrl message : String)
  | jobStatus (job : JobData) (uploaded : Option Bool) (message : String)
  | resultOk (jobId : String) (status : Status) (storageUrl : Option String)
      (message : String)
deriving DecidableEq, Repr

/-- An HTTP response: status code and JSON body. -/
structure Resp where
  status : Nat
  body : RespBody
deriving DecidableEq, Repr

def requiredMsg : String := "Sequence is required"

def invalidSeqMsg : String :=
  "Invalid protein sequence. Use standard amino acid codes (ACDEFGHIKLMNPQRSTVWY)."

/-- sequenceController: storage name derived from the jobId. -/
def storageNameOf (jobId : String) : String := "proteins/" ++ jobId ++ ".pdb"

/-- sequenceController.submitSequence.  The request body carries an optional
    sequence field; a missing or empty sequence is falsy in the source. -/
def submitSequence (env : Env) (st : Store) (body : Option String) :
    Store × Resp :=
  match body with
  | none => (st, ⟨400, RespBody.errorBody requiredMsg⟩)
  | some sequence =>
    if sequence = "" then
      (st, ⟨400, RespBody.errorBody requiredMsg⟩)
    else if ¬ isValidSequence sequence then
      (st, ⟨400, RespBody.errorBody invalidSeqMsg⟩)
    else
      let jobId := env.newJobId
      let storageName := storageNameOf jobId
      let storageUrl := env.sasUrl storageName
      let jobData : JobData :=
        { jobId := jobId, sequence := sequence, status := Status.queued,
          storageName := storageName, storageUrl := storageUrl,
          submittedAt := env.now, processedAt := none, completedAt := none,
          error := none }
      let st1 := addToQueue st jobData
      if env.predictorOk then
        let st2 := addToLog st1 env.now { jobData with status := Status.processing }
        let st3 := removeFromQueue st2 jobId
        (st3, ⟨200, RespBody.submitOk jobId storageUrl
          "Sequence submitted successfully"⟩)
      else
        let st2 := addToLog st1 env.now
          { jobData with
            status := Status.error
            error := some "Failed to send to AlphaFold VM" }
        (st2, ⟨200, RespBody.submitOk jobId storageUrl
          "Sequence submitted successfully"⟩)

/-- sequenceController.getJobStatus: queue first, else log; for logged
    processing/completed jobs the SAS URL is regenerated and the reported
    status is recomputed from blob existence. -/
def getJobStatus (env : Env) (st : Store) (jobId : String) : Store × Resp :=
  match getQueuedJob st jobId with
  | some queuedJob =>
    (st, ⟨200, RespBody.jobStatus queuedJob none "Job is queued for processing"⟩)
  | none =>
    match getLoggedJob st jobId with
    | some loggedJob =>
      if loggedJob.status = Status.processing ∨ loggedJob.status = Status.completed then
        let storageUrl := env.sasUrl loggedJob.storageName
        let blobExists := env.blobExists loggedJob.storageName
        (st, ⟨200, RespBody.jobStatus
          { loggedJob with
            storageUrl := storageUrl
            status := if blobExists then Status.completed else Status.processing }
          (some blobExists) "Job has been processed"⟩)
      else
        (st, ⟨200, RespBody.jobStatus loggedJob none "Job has been processed"⟩)
    | none => (st, ⟨404, RespBody.errorBody "Job not found"⟩)

/-- sequenceController.checkResult: log only; when the blob exists, a job
    still in status processing is updated to completed with completedAt set. -/
def checkResult (env : Env) (st : Store) (jobId : String) : Store × Resp :=
  match getLoggedJob st jobId with
  | none => (st, ⟨404, RespBody.errorBody "Job not found"⟩)
  | some loggedJob =>
    if env.blobExists loggedJob.storageName then
      let st1 :=
        if loggedJob.status = Status.processing then
          (updateLoggedJob st jobId
            { status := some Status.completed, completedAt := some env.now }).2
        else st
      let storageUrl := env.sasUrl loggedJob.storageName
      (st1, ⟨200, RespBody.resultOk jobId Status.completed (some storageUrl)
        "Result is available"⟩)
    else
      (st, ⟨200, RespBody.resultOk jobId Status.processing none
        "Result is not available yet"⟩)

/-- The storageUrl field carried by a response body, when there is one. -/
def respStorageUrl : RespBody → Option String
  | RespBody.errorBody _ => none
  | RespBody.submitOk _ storageUrl _ => some storageUrl
  | RespBody.jobStatus job _ _ => some job.storageUrl
  | RespBody.resultOk _ _ storageUrl _ => storageUrl

/-! ### Helper lemmas -/

theorem applyUpdates_jobId (job : JobData) (u : JobUpdates) :
    (applyUpdates job u).jobId = job.jobId := rfl

/-- Updating the first matching entry keeps it the first matching entry. -/
theorem updateFirst_find (l : List JobData) (jobId : String) (u : JobUpdates)
    (j : JobData) (h : l.find? (fun job => job.jobId = jobId) = some j) :
    (updateFirst l jobId u).2.find? (fun job => job.jobId = jobId)
      = some (applyUpdates j u) := by
  induction l with
  | nil => simp [List.find?] at h
  | cons a l ih =>
    by_cases ha : a.jobId = jobId
    · have hj : a = j := by
        simpa [List.find?, ha] using h
      subst hj
      simp [updateFirst, ha, List.find?, applyUpdates_jobId]
    · have h' : l.find? (fun job => job.jobId = jobId) = some j := by
        simpa [List.find?, ha] using h
      have := ih h'
      simp [updateFirst, ha, List.find?, this]

/-- The store updateLoggedJob produces keeps the updated job findable. -/
theorem updateLoggedJob_find (st : Store) (jobId : String) (u : JobUpdates)
    (j : JobData) (h : getLoggedJob st jobId = some j) :
    getLoggedJob (updateLoggedJob st jobId u).2 jobId = some (applyUpdates j u) := by
  simpa [getLoggedJob, updateLoggedJob] using updateFirst_find st.log jobId u j h

/-- checkResult on a jobId absent from the log: 404, store untouched. -/
theorem checkResult_not_logged (env : Env) (st : Store) (jobId : String)
    (hj : getLoggedJob st jobId = none) :
    checkResult env st jobId = (st, ⟨404, RespBody.errorBody "Job not found"⟩) := by
  simp [checkResult, hj]

/-- checkResult when the blob is absent: still-processing response, store
    untouched. -/
theorem checkResult_blob_absent (env : Env) (st : Store) (jobId : String)
    (j : JobData) (hj : getLoggedJob st jobId = some j)
    (hb : env.blobExists j.storageName = false) :
    checkResult env st jobId =
      (st, ⟨200, RespBody.resultOk jobId Status.processing none
        "Result is not available yet"⟩) := by
  simp [checkResult, hj, hb]

/-- checkResult when the blob exists and the logged status is not processing:
    completed response with a regenerated URL, store untouched. -/
theorem checkResult_blob_exists_not_processing (env : Env) (st : Store)
    (jobId : String) (j : JobData) (hj : getLoggedJob st jobId = some j)
    (hb : env.blobExists j.storageName = true)
    (hp : j.status ≠ Status.processing) :
    checkResult env st jobId =
      (st, ⟨200, RespBody.resultOk jobId Status.completed
        (some (env.sasUrl j.storageName)) "Result is available"⟩) := by
  simp [checkResult, hj, hb, hp]

/-- checkResult when the blob exists and the logged status is processing:
    completed response, and the logged record is updated. -/
theorem checkResult_blob_exists_processing (env : Env) (st : Store)
    (jobId : String) (j : JobData) (hj : getLoggedJob st jobId = some j)
    (hb : env.blobExists j.storageName = true)
    (hp : j.status = Status.processing) :
    checkResult env st jobId =
      ((updateLoggedJob st jobId ⟨some Status.completed, some env.now⟩).2,
       ⟨200, RespBody.resultOk jobId Status.completed
         (some (env.sasUrl j.storageName)) "Result is available"⟩) := by
  simp [checkResult, hj, hb, hp]

/-- getJobStatus on a queued jobId: the queued record verbatim. -/
theorem getJobStatus_queued (env : Env) (st : Store) (jobId : String)
    (qj : JobData) (hq : getQueuedJob st jobId = some qj) :
    getJobStatus env st jobId =
      (st, ⟨200, RespBody.jobStatus qj none "Job is queued for processing"⟩) := by
  simp [getJobStatus, hq]

/-- getJobStatus on a logged processing/completed job: regenerated URL and a
    status recomputed from blob existence. -/
theorem getJobStatus_logged_active (env : Env) (st : Store) (jobId : String)
    (lj : JobData) (hq : getQueuedJob st jobId = none)
    (hl : getLoggedJob st jobId = some lj)
    (hs : lj.status = Status.processing ∨ lj.status = Status.completed) :
    getJobStatus env st jobId =
      (st, ⟨200, RespBody.jobStatus
        { lj with
          storageUrl := env.sasUrl lj.storageName
          status := if env.blobExists lj.storageName then Status.completed
                    else Status.processing }
        (some (env.blobExists lj.storageName)) "Job has been processed"⟩) := by
  unfold getJobStatus
  rw [hq, hl]
  simp [if_pos hs]

/-- getJobStatus on a logged job in any other status: the logged record
    verbatim. -/
theorem getJobStatus_logged_other (env : Env) (st : Store) (jobId : String)
    (lj : JobData) (hq : getQueuedJob st jobId = none)
    (hl : getLoggedJob st jobId = some lj)
    (hs : ¬(lj.status = Status.processing ∨ lj.status = Status.completed)) :
    getJobStatus env st jobId =
      (st, ⟨200, RespBody.jobStatus lj none "Job has been processed"⟩) := by
  unfold getJobStatus
  rw [hq, hl]
  simp [if_neg hs]

/-- getJobStatus on an unknown jobId: 404. -/
theorem getJobStatus_not_found (env : Env) (st : Store) (jobId : String)
    (hq : getQueuedJob st jobId = none) (hl : getLoggedJob st jobId = none) :
    getJobStatus env st jobId = (st, ⟨404, RespBody.errorBody "Job not found"⟩) := by
  simp [getJobStatus, hq, hl]

/-- getJobStatus never writes to the store. -/
theorem getJobStatus_store_unchanged (env : Env) (st : Store) (jobId : String) :
    (getJobStatus env st jobId).1 = st := by
  unfold getJobStatus
  rcases getQueuedJob st jobId with _ | qj
  · rcases getLoggedJob st jobId with _ | lj
    · rfl
    · by_cases hs : lj.status = Status.processing ∨ lj.status = Status.completed
      · simp [if_pos hs]
      · simp [if_neg hs]
  · rfl

/-! ### Concrete request environments and stores used in witnesses and
counterexamples -/

/-- A request environment whose predictor dispatch fails. -/
def envDispatchFail : Env :=
  ⟨"j1", fun n => "sas-" ++ n, false, fun _ => false, "t0"⟩

/-- A request environment whose predictor dispatch succeeds. -/
def envDispatchOk : Env :=
  ⟨"j1", fun n => "sas-" ++ n, true, fun _ => false, "t0"⟩

/-- A later poll's environment: a fresh URL generator and the blob present. -/
def envPoll : Env :=
  ⟨"j2", fun n => "fresh-" ++ n, true, fun _ => true, "t1"⟩

/-- A logged job still in status processing. -/
def processingJob : JobData :=
  ⟨"j9", "ACD", Status.processing, "proteins/j9.pdb", "old-url", "t0",
    some "t0", none, none⟩

/-- A logged job in status error. -/
def errorJob : JobData :=
  ⟨"j9", "ACD", Status.error, "proteins/j9.pdb", "old-url", "t0",
    some "t0", none, some "Failed to send to AlphaFold VM"⟩

/-- A queued job whose persisted storageUrl is stale. -/
def staleQueuedJob : JobData :=
  ⟨"q1", "ACD", Status.queued, "proteins/q1.pdb", "stale-url", "t0",
    none, none, none⟩

/-! ### Claim theorems -/

/-- C9: for every object name, the storage adapter's existence check returns
    false exactly when the provider signals not-found (Azure statusCode 404,
    S3 error name NotFound), returns true when the metadata call succeeds,
    and propagates every other failure as an error, in both implementations. -/
theorem existsCheck_notFound_false_else_propagates :
    (∀ u : Unit, checkBlobExists (Except.ok u) = Except.ok true) ∧
    (∀ e : AzureStorageError,
      (e.statusCode = 404 → checkBlobExists (Except.error e) = Except.ok false) ∧
      (e.statusCode ≠ 404 → checkBlobExists (Except.error e) = Except.error e)) ∧
    (∀ r : Except AzureStorageError Unit,
      checkBlobExists r = Except.ok false ↔
        ∃ e, r = Except.error e ∧ e.statusCode = 404) ∧
    (∀ u : Unit, checkObjectExists (Except.ok u) = Except.ok true) ∧
    (∀ e : S3Error,
      (e.name = "NotFound" → checkObjectExists (Except.error e) = Except.ok false) ∧
      (e.name ≠ "NotFound" → checkObjectExists (Except.error e) = Except.error e)) ∧
    (∀ r : Except S3Error Unit,
      checkObjectExists r = Except.ok false ↔
        ∃ e, r = Except.error e ∧ e.name = "NotFound") := by
  refine ⟨fun u => rfl, fun e => ⟨fun h => ?_, fun h => ?_⟩, fun r => ?_,
    fun u => rfl, fun e => ⟨fun h => ?_, fun h => ?_⟩, fun r => ?_⟩
  · simp [checkBlobExists, h]
  · simp [checkBlobExists, h]
  · cases r with
    | ok u => simp [checkBlobExists]
    | error e =>
      by_cases h : e.statusCode = 404 <;> simp [checkBlobExists, h]
  · simp [checkObjectExists, h]
  · simp [checkObjectExists, h]
  · cases r with
    | ok u => simp [checkObjectExists]
    | error e =>
      by_cases h : e.name = "NotFound" <;> simp [checkObjectExists, h]

/-- Witness for C9 at concrete provider outcomes. -/
theorem existsCheck_notFound_false_else_propagates_witness :
    checkBlobExists (Except.ok ()) = Except.ok true ∧
    checkBlobExists (Except.error ⟨404, "not found"⟩) = Except.ok false ∧
    checkBlobExists (Except.error ⟨503, "busy"⟩) = Except.error ⟨503, "busy"⟩ ∧
    checkObjectExists (Except.error ⟨"NotFound", "missing"⟩) = Except.ok false ∧
    checkObjectExists (Except.error ⟨"AccessDenied", "no"⟩) =
      Except.error ⟨"AccessDenied", "no"⟩ :=
  ⟨existsCheck_notFound_false_else_propagates.1 (),
   (existsCheck_notFound_false_else_propagates.2.1 ⟨404, "not found"⟩).1 rfl,
   (existsCheck_notFound_false_else_propagates.2.1 ⟨503, "busy"⟩).2 (by decide),
   (existsCheck_notFound_false_else_propagates.2.2.2.2.1 ⟨"NotFound", "missing"⟩).1 rfl,
   (existsCheck_notFound_false_else_propagates.2.2.2.2.1 ⟨"AccessDenied", "no"⟩).2
     (by decide)⟩

/-- C10: sequence validation is case-insensitive: a string passes exactly when
    it is non-empty and every character, after uppercasing, is one of
    ACDEFGHIKLMNPQRSTVWY; the empty string is always rejected. -/
theorem isValidSequence_case_insensitive (s : String) :
    isValidSequence s = true ↔
      s ≠ "" ∧ ∀ c ∈ s.data, c.toUpper ∈ validAminoAcids := by
  unfold isValidSequence
  by_cases h : s = ""
  · simp [h]
  · simp [h, List.all_eq_true]

/-- Witness for C10: lowercase amino-acid codes pass validation, the empty
    string does not. -/
theorem isValidSequence_case_insensitive_witness :
    isValidSequence "acdef" = true ∧ ¬ isValidSequence "" = true :=
  ⟨(isValidSequence_case_insensitive "acdef").mpr (by decide),
   fun h => by
     have := ((isValidSequence_case_insensitive "").mp h).1
     simp at this⟩

/-- C1: evaluation at the failing input.  After a valid submission whose
    predictor dispatch fails, the submit handler finishes with the jobId
    present in BOTH collections: the queue still holds the record with status
    queued (the catch branch never calls removeFromQueue) while the log holds
    the copy with status error — contradicting mutual exclusion. -/
theorem submit_dispatch_failure_job_in_both_collections :
    ((getQueuedJob (submitSequence envDispatchFail emptyStore (some "ACD")).1
        "j1").map JobData.status = some Status.queued) ∧
    ((getLoggedJob (submitSequence envDispatchFail emptyStore (some "ACD")).1
        "j1").map JobData.status = some Status.error) :=
  ⟨rfl, rfl⟩

/-- C4: evaluation at the failing input.  A valid submission with failing
    predictor dispatch still answers 200 with jobId, storageUrl and message,
    and the log records status error with the stored message — but a later
    getJobStatus poll finds the stale queue entry first and reports status
    queued, so the error status is never surfaced by a status poll. -/
theorem submit_dispatch_failure_poll_hides_error :
    ((submitSequence envDispatchFail emptyStore (some "ACD")).2 =
      ⟨200, RespBody.submitOk "j1" "sas-proteins/j1.pdb"
        "Sequence submitted successfully"⟩) ∧
    ((getLoggedJob (submitSequence envDispatchFail emptyStore (some "ACD")).1
        "j1").map JobData.status = some Status.error) ∧
    ((getLoggedJob (submitSequence envDispatchFail emptyStore (some "ACD")).1
        "j1").map JobData.error = some (some "Failed to send to AlphaFold VM")) ∧
    ((getJobStatus envPoll (submitSequence envDispatchFail emptyStore (some "ACD")).1
        "j1").2.body =
      RespBody.jobStatus
        ⟨"j1", "ACD", Status.queued, "proteins/j1.pdb", "sas-proteins/j1.pdb",
          "t0", none, none, none⟩
        none "Job is queued for processing") :=
  ⟨rfl, rfl, rfl, rfl⟩

/-- C5 counterexample: the sequence a consists solely of characters outside
    the literal set ACDEFGHIKLMNPQRSTVWY, yet submission is accepted with 200
    and a job record is created (validation uppercases first). -/
theorem submit_accepts_all_lowercase_sequence :
    (∀ c ∈ "a".data, c ∉ validAminoAcids) ∧
    (submitSequence envDispatchOk emptyStore (some "a")).2.status = 200 ∧
    (getLoggedJob (submitSequence envDispatchOk emptyStore (some "a")).1
      "j1").isSome = true :=
  ⟨by decide, rfl, rfl⟩

/-- C5 (amended): every sequence all of whose characters remain outside
    ACDEFGHIKLMNPQRSTVWY even after uppercasing is rejected with a 400
    response and the store is left unchanged, so no job is created in either
    the queue or the log. -/
theorem submit_rejects_sequences_invalid_after_uppercasing
    (env : Env) (st : Store) (s : String)
    (h : ∀ c ∈ s.data, c.toUpper ∉ validAminoAcids) :
    (submitSequence env st (some s)).1 = st ∧
    (submitSequence env st (some s)).2.status = 400 := by
  by_cases hs : s = ""
  · subst hs; simp [submitSequence]
  · have hv : isValidSequence s = false := by
      unfold isValidSequence
      rw [if_neg hs]
      rcases hd : s.data with _ | ⟨c, cs⟩
      · exact absurd (String.ext hd) hs
      · have hc := h c (by rw [hd]; exact List.mem_cons_self c cs)
        simp [List.all_cons, hc]
    simp [submitSequence, hs, hv]

/-- Witness for the amended C5 at a concrete invalid sequence. -/
theorem submit_rejects_sequences_invalid_after_uppercasing_witness :
    (submitSequence envDispatchOk emptyStore (some "B1")).1 = emptyStore ∧
    (submitSequence envDispatchOk emptyStore (some "B1")).2.status = 400 :=
  submit_rejects_sequences_invalid_after_uppercasing envDispatchOk emptyStore "B1"
    (by decide)

/-- C6 counterexample: submitting SHORT yields 400, but the error message is
    the invalid-amino-acid-code message; it does not report that the sequence
    is too short (the phrase does not occur in it). -/
theorem submit_SHORT_message_not_about_length :
    ((submitSequence envDispatchOk emptyStore (some "SHORT")).2 =
      ⟨400, RespBody.errorBody invalidSeqMsg⟩) ∧
    ¬ ("too short".data <:+: invalidSeqMsg.data) :=
  ⟨rfl, by decide⟩

/-- C6 (amended): SHORT is rejected with 400 because it contains the invalid
    code O, not because of its length; the server performs no length
    validation at all — a sequence over the valid alphabet is accepted with
    200 whatever its nonzero length. -/
theorem submit_SHORT_rejected_for_invalid_code_no_length_check :
    ((submitSequence envDispatchOk emptyStore (some "SHORT")).2 =
      ⟨400, RespBody.errorBody invalidSeqMsg⟩) ∧
    ('O' ∉ validAminoAcids) ∧
    ∀ n : Nat, 0 < n →
      (submitSequence envDispatchOk emptyStore
        (some (String.mk (List.replicate n 'A')))).2.status = 200 := by
  refine ⟨rfl, by decide, fun n hn => ?_⟩
  have hne : String.mk (List.replicate n 'A') ≠ "" := by
    intro h
    have h2 : List.replicate n 'A' = "".data := congrArg String.data h
    simp at h2
    omega
  have hv : isValidSequence (String.mk (List.replicate n 'A')) = true := by
    unfold isValidSequence
    rw [if_neg hne]
    simp only [List.all_eq_true, List.mem_replicate]
    intro c hc
    rw [hc.2]
    decide
  simp [submitSequence, hne, hv, envDispatchOk]

/-- Witness for the amended C6 at concrete lengths 1 and 2000. -/
theorem submit_SHORT_rejected_for_invalid_code_no_length_check_witness :
    ((submitSequence envDispatchOk emptyStore
        (some (String.mk (List.replicate 1 'A')))).2.status = 200) ∧
    ((submitSequence envDispatchOk emptyStore
        (some (String.mk (List.replicate 2000 'A')))).2.status = 200) :=
  ⟨submit_SHORT_rejected_for_invalid_code_no_length_check.2.2 1 (by decide),
   submit_SHORT_rejected_for_invalid_code_no_length_check.2.2 2000 (by decide)⟩

/-- C2: checkResult looks only in the log and answers 404 when the job was
    never logged; when the job is logged and the blob is absent it answers
    processing without touching the store; when the blob exists it answers
    completed with a storage URL, flips a stored processing status to
    completed exactly once — setting completedAt on that first transition,
    after which no further call modifies the store — and leaves the store
    untouched when the stored status is not processing. -/
theorem checkResult_contract (env : Env) (st : Store) (jobId : String) :
    (getLoggedJob st jobId = none →
      checkResult env st jobId = (st, ⟨404, RespBody.errorBody "Job not found"⟩)) ∧
    (∀ j, getLoggedJob st jobId = some j →
      (env.blobExists j.storageName = false →
        checkResult env st jobId =
          (st, ⟨200, RespBody.resultOk jobId Status.processing none
            "Result is not available yet"⟩)) ∧
      (env.blobExists j.storageName = true →
        ((checkResult env st jobId).2 =
          ⟨200, RespBody.resultOk jobId Status.completed
            (some (env.sasUrl j.storageName)) "Result is available"⟩) ∧
        (j.status ≠ Status.processing → (checkResult env st jobId).1 = st) ∧
        (j.status = Status.processing →
          (getLoggedJob (checkResult env st jobId).1 jobId =
            some { j with status := Status.completed, completedAt := some env.now }) ∧
          ∀ env2 : Env,
            (checkResult env2 (checkResult env st jobId).1 jobId).1 =
              (checkResult env st jobId).1))) := by
  refine ⟨fun h => checkResult_not_logged env st jobId h, fun j hj => ⟨?_, ?_⟩⟩
  · intro hb
    exact checkResult_blob_absent env st jobId j hj hb
  · intro hb
    refine ⟨?_, ?_, ?_⟩
    · by_cases hp : j.status = Status.processing
      · rw [checkResult_blob_exists_processing env st jobId j hj hb hp]
      · rw [checkResult_blob_exists_not_processing env st jobId j hj hb hp]
    · intro hp
      rw [checkResult_blob_exists_not_processing env st jobId j hj hb hp]
    · intro hp
      have hfind :
          getLoggedJob (checkResult env st jobId).1 jobId =
            some { j with status := Status.completed, completedAt := some env.now } := by
        rw [checkResult_blob_exists_processing env st jobId j hj hb hp]
        exact updateLoggedJob_find st jobId ⟨some Status.completed, some env.now⟩ j hj
      refine ⟨hfind, fun env2 => ?_⟩
      by_cases hb2 : env2.blobExists
          ({ j with status := Status.completed, completedAt := some env.now } :
            JobData).storageName
      · rw [checkResult_blob_exists_not_processing env2 (checkResult env st jobId).1
          jobId _ hfind hb2 (by simp)]
      · rw [checkResult_blob_absent env2 (checkResult env st jobId).1
          jobId _ hfind (by simpa using hb2)]

/-- Witness for C2: concrete store with one logged processing job whose blob
    now exists; the first call flips the stored status and sets completedAt,
    and a second call leaves the store unchanged. -/
theorem checkResult_contract_witness :
    ((checkResult envPoll ⟨[], [processingJob]⟩ "j9").2 =
      ⟨200, RespBody.resultOk "j9" Status.completed
        (some "fresh-proteins/j9.pdb") "Result is available"⟩) ∧
    (getLoggedJob (checkResult envPoll ⟨[], [processingJob]⟩ "j9").1 "j9" =
      some { processingJob with
             status := Status.completed
             completedAt := some "t1" }) ∧
    ((checkResult envPoll (checkResult envPoll ⟨[], [processingJob]⟩ "j9").1 "j9").1 =
      (checkResult envPoll ⟨[], [processingJob]⟩ "j9").1) := by
  have h := checkResult_contract envPoll ⟨[], [processingJob]⟩ "j9"
  have h2 := (h.2 processingJob rfl).2 rfl
  exact ⟨h2.1, (h2.2.2 rfl).1, (h2.2.2 rfl).2 envPoll⟩

/-- C3: getJobStatus answers with the queued record when the jobId is queued;
    otherwise with the logged record, regenerating the URL and recomputing the
    status from blob existence (completed iff the blob exists) when the logged
    status is processing or completed; and with 404 body error Job not found
    when the jobId is in neither collection. -/
theorem getJobStatus_contract (env : Env) (st : Store) (jobId : String) :
    (∀ qj, getQueuedJob st jobId = some qj →
      getJobStatus env st jobId =
        (st, ⟨200, RespBody.jobStatus qj none "Job is queued for processing"⟩)) ∧
    (getQueuedJob st jobId = none →
      (∀ lj, getLoggedJob st jobId = some lj →
        ((lj.status = Status.processing ∨ lj.status = Status.completed) →
          getJobStatus env st jobId =
            (st, ⟨200, RespBody.jobStatus
              { lj with
                storageUrl := env.sasUrl lj.storageName
                status := if env.blobExists lj.storageName then Status.completed
                          else Status.processing }
              (some (env.blobExists lj.storageName)) "Job has been processed"⟩)) ∧
        (¬(lj.status = Status.processing ∨ lj.status = Status.completed) →
          getJobStatus env st jobId =
            (st, ⟨200, RespBody.jobStatus lj none "Job has been processed"⟩))) ∧
      (getLoggedJob st jobId = none →
        getJobStatus env st jobId =
          (st, ⟨404, RespBody.errorBody "Job not found"⟩))) := by
  refine ⟨fun qj hq => getJobStatus_queued env st jobId qj hq, fun hq => ⟨?_, ?_⟩⟩
  · intro lj hl
    exact ⟨fun hs => getJobStatus_logged_active env st jobId lj hq hl hs,
           fun hs => getJobStatus_logged_other env st jobId lj hq hl hs⟩
  · intro hl
    exact getJobStatus_not_found env st jobId hq hl

/-- Witness for C3: a never-submitted id yields 404 Job not found. -/
theorem getJobStatus_contract_witness :
    getJobStatus envPoll emptyStore "nope" =
      (emptyStore, ⟨404, RespBody.errorBody "Job not found"⟩) :=
  ((getJobStatus_contract envPoll emptyStore "nope").2 rfl).2 rfl

/-- C7 counterexample: for a logged job whose recorded status is error,
    checkResult reports status completed as soon as the blob exists —
    reporting a status other than the terminal error. -/
theorem checkResult_reports_completed_for_error_job :
    ((getLoggedJob ⟨[], [errorJob]⟩ "j9").map JobData.status = some Status.error) ∧
    ((checkResult envPoll ⟨[], [errorJob]⟩ "j9").2 =
      ⟨200, RespBody.resultOk "j9" Status.completed
        (some "fresh-proteins/j9.pdb") "Result is available"⟩) ∧
    Status.completed ≠ Status.error :=
  ⟨rfl, rfl, by decide⟩

/-- C7 (amended): the polling operations never store a status other than a
    forward step — getJobStatus never writes, checkResult only turns a stored
    processing into completed — and a stored error status is never modified
    and is reported as error by getJobStatus (absent a queue entry); but
    checkResult derives its reported status from blob existence alone, even
    for jobs whose recorded status is error. -/
theorem stored_status_forward_error_terminal_in_store
    (env : Env) (st : Store) (jobId : String) :
    ((getJobStatus env st jobId).1 = st) ∧
    (∀ j, getLoggedJob st jobId = some j →
      (∀ j', getLoggedJob (checkResult env st jobId).1 jobId = some j' →
        j' = j ∨ (j.status = Status.processing ∧
          j' = { j with status := Status.completed, completedAt := some env.now })) ∧
      (j.status = Status.error →
        ((checkResult env st jobId).1 = st) ∧
        (getQueuedJob st jobId = none →
          (getJobStatus env st jobId).2 =
            ⟨200, RespBody.jobStatus j none "Job has been processed"⟩))) := by
  refine ⟨getJobStatus_store_unchanged env st jobId, fun j hj => ⟨?_, ?_⟩⟩
  · intro j' hj'
    by_cases hb : env.blobExists j.storageName
    · by_cases hp : j.status = Status.processing
      · right
        refine ⟨hp, ?_⟩
        have hfind :
            getLoggedJob (checkResult env st jobId).1 jobId =
              some { j with status := Status.completed, completedAt := some env.now } := by
          rw [checkResult_blob_exists_processing env st jobId j hj hb hp]
          exact updateLoggedJob_find st jobId ⟨some Status.completed, some env.now⟩ j hj
        rw [hfind] at hj'
        exact (Option.some.injEq _ _ ▸ hj').symm
      · left
        rw [checkResult_blob_exists_not_processing env st jobId j hj hb hp] at hj'
        simp only [hj] at hj'
        exact (Option.some.injEq _ _ ▸ hj').symm
    · left
      rw [checkResult_blob_absent env st jobId j hj (by simpa using hb)] at hj'
      simp only [hj] at hj'
      exact (Option.some.injEq _ _ ▸ hj').symm
  · intro he
    have hp : j.status ≠ Status.processing := by rw [he]; decide
    constructor
    · by_cases hb : env.blobExists j.storageName
      · rw [checkResult_blob_exists_not_processing env st jobId j hj hb hp]
      · rw [checkResult_blob_absent env st jobId j hj (by simpa using hb)]
    · intro hq
      have hs : ¬(j.status = Status.processing ∨ j.status = Status.completed) := by
        rw [he]; decide
      rw [getJobStatus_logged_other env st jobId j hq hj hs]

/-- Witness for the amended C7 at a concrete logged error job. -/
theorem stored_status_forward_error_terminal_in_store_witness :
    ((checkResult envPoll ⟨[], [errorJob]⟩ "j9").1 = ⟨[], [errorJob]⟩) ∧
    ((getJobStatus envPoll ⟨[], [errorJob]⟩ "j9").2 =
      ⟨200, RespBody.jobStatus errorJob none "Job has been processed"⟩) := by
  have h :=
    ((stored_status_forward_error_terminal_in_store envPoll ⟨[], [errorJob]⟩
      "j9").2 errorJob rfl).2 rfl
  exact ⟨h.1, h.2 rfl⟩

/-- C8 counterexample: a queued job is returned by getJobStatus with the
    storageUrl persisted at submission time, not one generated during this
    request (this request's generator yields a different URL). -/
theorem getJobStatus_queued_returns_persisted_url :
    ((getJobStatus envPoll ⟨[staleQueuedJob], []⟩ "q1").2.body =
      RespBody.jobStatus staleQueuedJob none "Job is queued for processing") ∧
    (respStorageUrl (getJobStatus envPoll ⟨[staleQueuedJob], []⟩ "q1").2.body =
      some "stale-url") ∧
    (envPoll.sasUrl staleQueuedJob.storageName ≠ "stale-url") :=
  ⟨rfl, rfl, by decide⟩

/-- C8 (amended): the storageUrl in a response is freshly generated by the
    current request's SAS generator on the regenerating paths — the submit
    response, checkResult result URLs, and getJobStatus for logged jobs in
    status processing or completed — while getJobStatus returns the persisted
    storageUrl for queued jobs and for logged jobs in any other status. -/
theorem respStorageUrl_fresh_only_on_regenerating_paths
    (env : Env) (st : Store) (jobId s : String) :
    (isValidSequence s = true →
      respStorageUrl (submitSequence env st (some s)).2.body =
        some (env.sasUrl (storageNameOf env.newJobId))) ∧
    (∀ j, getLoggedJob st jobId = some j →
      env.blobExists j.storageName = true →
      respStorageUrl (checkResult env st jobId).2.body =
        some (env.sasUrl j.storageName)) ∧
    (getQueuedJob st jobId = none →
      ∀ lj, getLoggedJob st jobId = some lj →
        ((lj.status = Status.processing ∨ lj.status = Status.completed) →
          respStorageUrl (getJobStatus env st jobId).2.body =
            some (env.sasUrl lj.storageName)) ∧
        (¬(lj.status = Status.processing ∨ lj.status = Status.completed) →
          respStorageUrl (getJobStatus env st jobId).2.body =
            some lj.storageUrl)) ∧
    (∀ qj, getQueuedJob st jobId = some qj →
      respStorageUrl (getJobStatus env st jobId).2.body = some qj.storageUrl) := by
  refine ⟨?_, ?_, ?_, ?_⟩
  · intro hv
    have hne : s ≠ "" := by
      intro h
      rw [h] at hv
      simp [isValidSequence] at hv
    by_cases hp : env.predictorOk <;>
      simp [submitSequence, hne, hv, hp, respStorageUrl]
  · intro j hj hb
    by_cases hp : j.status = Status.processing
    · rw [checkResult_blob_exists_processing env st jobId j hj hb hp]
      rfl
    · rw [checkResult_blob_exists_not_processing env st jobId j hj hb hp]
      rfl
  · intro hq lj hl
    constructor
    · intro hs
      rw [getJobStatus_logged_active env st jobId lj hq hl hs]
      rfl
    · intro hs
      rw [getJobStatus_logged_other env st jobId lj hq hl hs]
      rfl
  · intro qj hq
    rw [getJobStatus_queued env st jobId qj hq]
    rfl

/-- Witness for the amended C8: persisted URL for a queued job, fresh URL for
    a logged processing job, both at concrete inputs. -/
theorem respStorageUrl_fresh_only_on_regenerating_paths_witness :
    (respStorageUrl (getJobStatus envPoll ⟨[staleQueuedJob], []⟩ "q1").2.body =
      some staleQueuedJob.storageUrl) ∧
    (respStorageUrl (getJobStatus envPoll ⟨[], [processingJob]⟩ "j9").2.body =
      some (envPoll.sasUrl processingJob.storageName)) :=
  ⟨(respStorageUrl_fresh_only_on_regenerating_paths envPoll
      ⟨[staleQueuedJob], []⟩ "q1" "").2.2.2 staleQueuedJob rfl,
   (((respStorageUrl_fresh_only_on_regenerating_paths envPoll
      ⟨[], [processingJob]⟩ "j9" "").2.2.1 rfl processingJob rfl).1 (Or.inl rfl))⟩

end AlphafoldWebApp
